import Mathlib

/-!
Shallow embedding of the TPS55289 buck-boost converter driver
(src/TPS55289.py) and a verification of the register-model properties
stated in its specification.

Modelling conventions:
* Python arbitrary-precision integers are `ℤ`; bitwise operations on
  possibly-negative values use Mathlib's two's-complement `Int.lor`,
  `Int.land` and an explicit arithmetic right shift `zshr`, which agree
  with Python's semantics.  Values that are always composed from
  non-negative masked quantities (the shadow register bytes) are `ℕ`.
* Python floats (used only for small exact decimal constants and
  engineering values) are modelled as `ℚ`; `int(x)` is truncation toward
  zero (`pyInt`) and `x % m` is the floor-based Python modulo (`pyMod`).
* The injected bus capabilities are modelled explicitly: register writes
  update a device register file `DevRegs`; the status-register read takes
  the byte delivered by the bus as an argument.
* `print`-based reporting is modelled as boolean/value outputs where a
  claim refers to what the driver reports.
-/

set_option maxRecDepth 16000

/-- Python `int(q)` for a rational `q`: truncation toward zero. -/
def pyInt (q : ℚ) : ℤ := if q < 0 then ⌈q⌉ else ⌊q⌋

/-- Python `a % m` on floats (modelled on `ℚ`): `a - m * ⌊a / m⌋`. -/
def pyMod (a m : ℚ) : ℚ := a - m * (⌊a / m⌋ : ℤ)

/-- Python arithmetic right shift on an arbitrary-precision integer:
`m >> n` keeps the sign, i.e. `-(m+1) >> n = -((m >> n) + 1)`. -/
def zshr : ℤ → ℕ → ℤ
  | Int.ofNat m, n => Int.ofNat (m >>> n)
  | Int.negSucc m, n => Int.negSucc (m >>> n)

/-- Python `x & ~mask` for a non-negative `x`: clears the `mask` bits of
`x`.  Written with `^^^` and `&&&` (rather than `Nat.ldiff`) so that it
evaluates by kernel reduction; `pyAndNotTestBit` below gives its
bit-level characterisation. -/
def pyAndNot (a m : ℕ) : ℕ := a ^^^ (a &&& m)

namespace TPS55289

/-- Device register file: the byte last written to each of the eight
device register addresses 0x00–0x07 (modelling the injected
`writeRegister` capability).  Power-on contents are taken as zero. -/
@[ext]
structure DevRegs where
  r0 : ℕ
  r1 : ℕ
  r2 : ℕ
  r3 : ℕ
  r4 : ℕ
  r5 : ℕ
  r6 : ℕ
  r7 : ℕ
deriving DecidableEq, Repr

/-- Bus write `writeto_mem(addr, registerAddress, register)`: stores the
byte at the addressed device register; unknown addresses are ignored. -/
def writeDevReg (d : DevRegs) (addr value : ℕ) : DevRegs :=
  if addr = 0x00 then { d with r0 := value }
  else if addr = 0x01 then { d with r1 := value }
  else if addr = 0x02 then { d with r2 := value }
  else if addr = 0x03 then { d with r3 := value }
  else if addr = 0x04 then { d with r4 := value }
  else if addr = 0x05 then { d with r5 := value }
  else if addr = 0x06 then { d with r6 := value }
  else if addr = 0x07 then { d with r7 := value }
  else d

/-- Driver state: the instance attributes of `class TPS55289` (leading
underscores dropped), plus the modelled device register file and enable
pin.  `SR`, `OCP_Mask` and `OVP_Mask` are attributes the source creates
only on the first call of `setSlewRate` / `disableOCPIndication` /
`disableOVPIndication`; their initial values here are immaterial (they
are never read before being written). -/
@[ext]
structure State where
  REF_VOLTAGE_LSB : ℕ
  REF_VOLTAGE_MSB : ℕ
  IOUT_LIMIT : ℕ
  VOUT_SR : ℕ
  VOUT_FS : ℕ
  CDC : ℕ
  MODE : ℕ
  STATUS : ℕ
  VREF : ℤ
  outputVoltage : ℚ
  outputCurrentLimit : ℚ
  currentLimitEN : ℕ
  currentLimitSet : ℚ
  OCP_DELAY : ℕ
  slewRate : ℕ
  SR : ℕ
  FB_MODE : ℕ
  INTFB : ℕ
  INTFB_Val : ℚ
  SC_Mask : ℕ
  OCP_MASK : ℕ
  OVP_MASK : ℕ
  OCP_Mask : ℕ
  OVP_Mask : ℕ
  CDC_OPTION : ℕ
  CDC_SETTING : ℕ
  OE : ℕ
  FSWDBL : ℕ
  HICCUP : ℕ
  DISCHG : ℕ
  FPWM : ℕ
  enablePin : Bool
  dev : DevRegs
deriving DecidableEq, Repr

/-- The attribute values established by `__init__` with the default
constructor arguments (`outputVoltage=0.8`, `currentLimit=6.35`,
`feedbackMode=0`), before `init()` runs any setter. -/
def initState : State where
  REF_VOLTAGE_LSB := 0b00000000
  REF_VOLTAGE_MSB := 0b00000000
  IOUT_LIMIT := 0b11100100
  VOUT_SR := 0b00000001
  VOUT_FS := 0b00000011
  CDC := 0b11100000
  MODE := 0b00100010
  STATUS := 0b00000000
  VREF := 0
  outputVoltage := 4/5
  outputCurrentLimit := 635/100
  currentLimitEN := 1
  currentLimitSet := 0b1100100
  OCP_DELAY := 0b00
  slewRate := 0b01
  SR := 0
  FB_MODE := 0b0
  INTFB := 0b11
  INTFB_Val := 564/10000
  SC_Mask := 0b1
  OCP_MASK := 0b1
  OVP_MASK := 0b1
  OCP_Mask := 0b1
  OVP_Mask := 0b1
  CDC_OPTION := 0b0
  CDC_SETTING := 0b000
  OE := 0b0
  FSWDBL := 0b0
  HICCUP := 0b1
  DISCHG := 0b0
  FPWM := 0b0
  enablePin := false
  dev := ⟨0, 0, 0, 0, 0, 0, 0, 0⟩

/-- Embedding of `setRegister(register, registerAddress)`: pushes a shadow byte to the
device over the bus. -/
def setRegister (st : State) (register registerAddress : ℕ) : State :=
  { st with dev := writeDevReg st.dev registerAddress register }

/-- Embedding of `setOutputVoltage(voltage)` (src/TPS55289.py lines 151–172).  Returns
the new state together with whether the out-of-bounds message was
printed.  The range test is `(voltage >= 0.8) & (voltage <= 22) == 0`
(in Python `&` binds tighter than `==`, and `pass` does not return, so
execution always continues).  Note the source ORs the freshly computed
DAC code into the previous `_VREF` (`|=`), truncates with `int`, never
clamps, and then reports `_VREF / _INTFB`, a division by the 2-bit
step-size field code.  In Python that division raises
`ZeroDivisionError` when `_INTFB = 0`; rational division yields `0`
there instead, and no theorem below depends on that case. -/
def setOutputVoltage (st : State) (voltage : ℚ) : State × Bool :=
  let reported := !(decide (4/5 ≤ voltage) && decide (voltage ≤ 22))
  let st1 := { st with outputVoltage := voltage }
  let VREF : ℚ := st1.outputVoltage * st1.INTFB_Val
  let newVREF : ℤ := Int.lor st1.VREF (pyInt (17715/10000 * (VREF * 1000 - 45)) + 1)
  let st2 := { st1 with
    VREF := newVREF
    outputVoltage := (newVREF : ℚ) / (st1.INTFB : ℚ)
    REF_VOLTAGE_LSB := (Int.land newVREF 0xFF).toNat
    REF_VOLTAGE_MSB := (Int.land (zshr newVREF 8) 0b111).toNat }
  let st3 := setRegister st2 st2.REF_VOLTAGE_LSB 0x00
  let st4 := setRegister st3 st3.REF_VOLTAGE_MSB 0x01
  (st4, reported)

/-- Embedding of `enableOutputCurrentLimit()` (lines 180–184): sets bit 7 of
`IOUT_LIMIT` and pushes the byte to register 0x02. -/
def enableOutputCurrentLimit (st : State) : State :=
  let st1 := { st with currentLimitEN := 0b1, IOUT_LIMIT := st.IOUT_LIMIT ||| (1 <<< 7) }
  setRegister st1 st1.IOUT_LIMIT 0x02

/-- Embedding of `disableOutputCurrentLimit()` (lines 186–190): clears bit 7 of
`IOUT_LIMIT` (`&= ~(1 << 7)`, i.e. `pyAndNot` for a non-negative
shadow byte) and pushes the byte to register 0x02. -/
def disableOutputCurrentLimit (st : State) : State :=
  let st1 := { st with currentLimitEN := 0b0, IOUT_LIMIT := pyAndNot st.IOUT_LIMIT (1 <<< 7) }
  setRegister st1 st1.IOUT_LIMIT 0x02

/-- Embedding of `setOutputCurrentLimit(currentLimit)` (lines 192–206).  The validity
test `(currentLimit%(0.05) != 0) | (currentLimit >= 0.0) | (currentLimit <= 6.35)`
is satisfied by every in-range value (second disjunct), and the body
falls through the `pass`.  The method stores `Vdiff / 0.5` in the
`_currentLimitSet` attribute and ends at the comment
`Set Register _TPS55289_IOUT_LIMIT with relevant bits` followed by
`pass`: no shadow `IOUT_LIMIT` update and no bus write happen.  Returns
the state and whether the invalid-setting message was printed.  (On
Python floats the `%` test can also fire through rounding error; on the
exact rationals used here it is the floor-based modulo, and the result
below never depends on that disjunct.) -/
def setOutputCurrentLimit (st : State) (currentLimit : ℚ) : State × Bool :=
  let reported := decide (pyMod currentLimit (5/100) ≠ 0) ||
    decide (0 ≤ currentLimit) || decide (currentLimit ≤ 635/100)
  let st1 := { st with outputCurrentLimit := currentLimit }
  let Vdiff : ℚ := st1.outputCurrentLimit * (1/100)
  ({ st1 with currentLimitSet := Vdiff / (5/10) }, reported)

/-- Embedding of `setOCPResponseTime(OCPResponseTime)` (lines 211–236): for a valid
code 0–3 it stores the code and mask-and-sets bits 4–5 of `VOUT_SR`
(the four branches differ only in the printed text); for any other code
it changes nothing.  The register byte is pushed to 0x03 in every
case. -/
def setOCPResponseTime (st : State) (OCPResponseTime : ℕ) : State :=
  let st1 :=
    if OCPResponseTime = 0b00 ∨ OCPResponseTime = 0b01 ∨
        OCPResponseTime = 0b10 ∨ OCPResponseTime = 0b11 then
      let st' := { st with OCP_DELAY := OCPResponseTime }
      { st' with VOUT_SR := pyAndNot st'.VOUT_SR (0b11 <<< 4) ||| (st'.OCP_DELAY <<< 4) }
    else st
  setRegister st1 st1.VOUT_SR 0x03

/-- Embedding of `setSlewRate(slewRate)` (lines 240–265): for a valid code 0–3 it
stores the code in the `_SR` attribute and then mask-and-sets bits 4–5
of `VOUT_SR` with the stored OCP delay `_OCP_DELAY` — not with the slew
code (the four branches differ only in the printed text); for any other
code it changes nothing.  The register byte is pushed to 0x03 in every
case. -/
def setSlewRate (st : State) (slewRate : ℕ) : State :=
  let st1 :=
    if slewRate = 0b00 ∨ slewRate = 0b01 ∨ slewRate = 0b10 ∨ slewRate = 0b11 then
      let st' := { st with SR := slewRate }
      { st' with VOUT_SR := pyAndNot st'.VOUT_SR (0b11 <<< 4) ||| (st'.OCP_DELAY <<< 4) }
    else st
  setRegister st1 st1.VOUT_SR 0x03

/-- Embedding of `setFeedbackMechanism(Mechanism)` (lines 270–280): updates
`_FB_MODE` for the two recognised strings, then ORs `_FB_MODE << 7`
into `VOUT_FS` (in every case) and pushes the byte to 0x04.  The OR can
set bit 7 but never clear it. -/
def setFeedbackMechanism (st : State) (Mechanism : String) : State :=
  let st1 :=
    if Mechanism = "external" then { st with FB_MODE := 1 }
    else if Mechanism = "internal" then { st with FB_MODE := 0 }
    else st
  let st2 := { st1 with VOUT_FS := st1.VOUT_FS ||| (st1.FB_MODE <<< 7) }
  setRegister st2 st2.VOUT_FS 0x04

/-- Embedding of `setStepSize(stepSize)` (lines 283–303): updates the 2-bit `_INTFB`
code and the step constant `_INTFB_Val` for the four recognised sizes,
then ORs `_INTFB` into the low bits of `VOUT_FS` (in every case) and
pushes the byte to 0x04.  The OR can set the low bits but never clear
them. -/
def setStepSize (st : State) (stepSize : ℚ) : State :=
  let st1 :=
    if stepSize = 5/2 then { st with INTFB := 0b00, INTFB_Val := 2256/10000 }
    else if stepSize = 5 then { st with INTFB := 0b01, INTFB_Val := 1128/10000 }
    else if stepSize = 15/2 then { st with INTFB := 0b10, INTFB_Val := 752/10000 }
    else if stepSize = 10 then { st with INTFB := 0b11, INTFB_Val := 564/10000 }
    else st
  let st2 := { st1 with VOUT_FS := st1.VOUT_FS ||| st1.INTFB }
  setRegister st2 st2.VOUT_FS 0x04

/-- Embedding of `enableSCIndication()` (lines 307–311): sets bit 7 of `CDC`. -/
def enableSCIndication (st : State) : State :=
  let st1 := { st with SC_Mask := 0b1, CDC := st.CDC ||| (1 <<< 7) }
  setRegister st1 st1.CDC 0x05

/-- Embedding of `disableSCIndication()` (lines 313–317): clears bit 7 of `CDC`. -/
def disableSCIndication (st : State) : State :=
  let st1 := { st with SC_Mask := 0b0, CDC := pyAndNot st.CDC (1 <<< 7) }
  setRegister st1 st1.CDC 0x05

/-- Embedding of `enableOCPIndication()` (lines 319–323): sets bit 6 of `CDC`. -/
def enableOCPIndication (st : State) : State :=
  let st1 := { st with OCP_MASK := 0b1, CDC := st.CDC ||| (1 <<< 6) }
  setRegister st1 st1.CDC 0x05

/-- Embedding of `disableOCPIndication()` (lines 325–329): clears bit 6 of `CDC` (the
source stores the flag in a differently-capitalised attribute
`_OCP_Mask`). -/
def disableOCPIndication (st : State) : State :=
  let st1 := { st with OCP_Mask := 0b0, CDC := pyAndNot st.CDC (1 <<< 6) }
  setRegister st1 st1.CDC 0x05

/-- Embedding of `enableOVPIndication()` (lines 331–335): sets bit 5 of `CDC`. -/
def enableOVPIndication (st : State) : State :=
  let st1 := { st with OVP_MASK := 0b1, CDC := st.CDC ||| (1 <<< 5) }
  setRegister st1 st1.CDC 0x05

/-- Embedding of `disableOVPIndication()` (lines 337–341): clears bit 5 of `CDC` (the
source stores the flag in a differently-capitalised attribute
`_OVP_Mask`). -/
def disableOVPIndication (st : State) : State :=
  let st1 := { st with OVP_Mask := 0b0, CDC := pyAndNot st.CDC (1 <<< 5) }
  setRegister st1 st1.CDC 0x05

/-- Embedding of `setCDCOption(cdcOption)` (lines 343–354): clears or sets bit 3 of
`CDC` for arguments 0/1 and changes nothing otherwise; the byte is
pushed to 0x05 in every case. -/
def setCDCOption (st : State) (cdcOption : ℕ) : State :=
  let st1 :=
    if cdcOption = 0 then { st with CDC_OPTION := 0b0, CDC := pyAndNot st.CDC (1 <<< 3) }
    else if cdcOption = 1 then { st with CDC_OPTION := 0b1, CDC := st.CDC ||| (1 <<< 3) }
    else st
  setRegister st1 st1.CDC 0x05

/-- Embedding of `setCDCCompensation(Compensation)` (lines 356–394): for the eight
recognised multiples of 0.1 V the 3-bit code is stored and
mask-and-set into bits 0–2 of `CDC` (all branches share the shape
`_CDC &= ~0b111; _CDC |= _CDC_SETTING`); other values change nothing.
The byte is pushed to 0x05 in every case. -/
def setCDCCompensation (st : State) (Compensation : ℚ) : State :=
  let put : ℕ → State := fun code =>
    { st with CDC_SETTING := code, CDC := pyAndNot st.CDC 0b111 ||| code }
  let st1 :=
    if Compensation = 0 then put 0b000
    else if Compensation = 1/10 then put 0b001
    else if Compensation = 2/10 then put 0b010
    else if Compensation = 3/10 then put 0b011
    else if Compensation = 4/10 then put 0b100
    else if Compensation = 5/10 then put 0b101
    else if Compensation = 6/10 then put 0b110
    else if Compensation = 7/10 then put 0b111
    else st
  setRegister st1 st1.CDC 0x05

/-- Embedding of `enable()` (lines 400–407): drives the enable pin high, sets bit 7
of `MODE` and pushes the byte to 0x06. -/
def enable (st : State) : State :=
  let st1 := { st with enablePin := true, OE := 1, MODE := st.MODE ||| (1 <<< 7) }
  setRegister st1 st1.MODE 0x06

/-- Embedding of `disable()` (lines 410–415): drives the enable pin low, clears bit 7
of `MODE` and pushes the byte to 0x06. -/
def disable (st : State) : State :=
  let st1 := { st with enablePin := false, OE := 0, MODE := pyAndNot st.MODE (1 <<< 7) }
  setRegister st1 st1.MODE 0x06

/-- Embedding of `FSWDoubling(input)` (lines 417–430): clears or sets bit 6 of `MODE`
for arguments 0/1, nothing otherwise; the byte is pushed to 0x06 in
every case. -/
def FSWDoubling (st : State) (input : ℕ) : State :=
  let st1 :=
    if input = 0 then { st with FSWDBL := 0b0, MODE := pyAndNot st.MODE (1 <<< 6) }
    else if input = 1 then { st with FSWDBL := 0b1, MODE := st.MODE ||| (1 <<< 6) }
    else st
  setRegister st1 st1.MODE 0x06

/-- Embedding of `enableHiccupMode()` (lines 432–436): sets bit 5 of `MODE`. -/
def enableHiccupMode (st : State) : State :=
  let st1 := { st with HICCUP := 0b1, MODE := st.MODE ||| (1 <<< 5) }
  setRegister st1 st1.MODE 0x06

/-- Embedding of `disableHiccupMode()` (lines 438–442): clears bit 5 of `MODE`. -/
def disableHiccupMode (st : State) : State :=
  let st1 := { st with HICCUP := 0b0, MODE := pyAndNot st.MODE (1 <<< 5) }
  setRegister st1 st1.MODE 0x06

/-- Embedding of `enableVOUTDischarge()` (lines 444–448): sets `_DISCHG := 1` and ORs
bit 4 of `MODE`. -/
def enableVOUTDischarge (st : State) : State :=
  let st1 := { st with DISCHG := 0b1, MODE := st.MODE ||| (1 <<< 4) }
  setRegister st1 st1.MODE 0x06

/-- Embedding of `disableVOUTDischarge()` (lines 450–454): sets `_DISCHG := 0` but
then performs `self._MODE |= (1 << 4)` — the same OR of bit 4 that
`enableVOUTDischarge` performs, not a clear. -/
def disableVOUTDischarge (st : State) : State :=
  let st1 := { st with DISCHG := 0b0, MODE := st.MODE ||| (1 <<< 4) }
  setRegister st1 st1.MODE 0x06

/-- Embedding of `FSWOperatingMode(input)` (lines 456–469): clears or sets bit 1 of
`MODE` for arguments 0/1, nothing otherwise; the byte is pushed to 0x06
in every case. -/
def FSWOperatingMode (st : State) (input : ℕ) : State :=
  let st1 :=
    if input = 0 then { st with FPWM := 0, MODE := pyAndNot st.MODE (1 <<< 1) }
    else if input = 1 then { st with FPWM := 1, MODE := st.MODE ||| (1 <<< 1) }
    else st
  setRegister st1 st1.MODE 0x06

/-- Binary digit characters of `n`, most significant first (`"0"` for
zero), as produced after the `"0b"` prefix of Python's `bin`.  Defined
with explicit fuel so that it evaluates by kernel reduction. -/
def binDigitsAux : ℕ → ℕ → List Char → List Char
  | 0, _, acc => acc
  | fuel + 1, n, acc =>
    if n = 0 then acc
    else binDigitsAux fuel (n / 2) ((if n % 2 = 1 then '1' else '0') :: acc)

/-- Python `bin(n)` for `n ≥ 0`, as a list of characters:
`'0' :: 'b' ::` the binary digits, most significant first. -/
def bin (n : ℕ) : List Char :=
  '0' :: 'b' :: (if n = 0 then ['0'] else binDigitsAux n n [])

/-- Python `==` between a one-character string (obtained by indexing the
`bin` string) and an integer: equality between values of different
types (`str` and `int`) is `False` in Python, whatever the values. -/
def pyStrEqInt (_s : List Char) (_n : ℕ) : Bool := false

/-- What `readStatusRegister` prints: whether each fault message of the
protective branch fired, and which operating-mode line the debug branch
printed. -/
structure StatusReport where
  shortCircuit : Bool
  overcurrent : Bool
  overvoltage : Bool
  modeBoost : Bool
  modeBuck : Bool
  modeBuckBoost : Bool
  modeInvalid : Bool
deriving DecidableEq, Repr

/-- Embedding of `readStatusRegister(debugOrMonitor)` (lines 474–499).  `busByte` is
the byte delivered by the injected bus read of register 0x07.  If any of
bits 4–6 is set the driver calls `disable()`.  The fault messages test
`bin(self._STATUS)[k] == 1` for `k = 3, 4, 5` in an `elif` chain: each
test compares a one-character string with the integer `1`, which is
`False` in Python, so no fault message can ever fire.  The debug branch
prints the raw characters and decodes the low two bits as the operating
mode.  (Python would raise `IndexError` if the `bin` string were
shorter than the index; indexing is modelled with a default character,
and the theorems below only evaluate status bytes where the index is in
range.) -/
def readStatusRegister (st : State) (busByte : ℕ) (debugOrMonitor : String) : State × StatusReport :=
  let st1 := { st with STATUS := busByte }
  let faulted := decide ((st1.STATUS >>> 4) &&& 0x07 ≠ 0)
  let st2 := if faulted then disable st1 else st1
  let b := bin st1.STATUS
  let c3 := pyStrEqInt [b.getD 3 ' '] 1
  let c4 := pyStrEqInt [b.getD 4 ' '] 1
  let c5 := pyStrEqInt [b.getD 5 ' '] 1
  let dbg := decide (debugOrMonitor = "debug")
  (st2,
    { shortCircuit := faulted && c3
      overcurrent := faulted && !c3 && c4
      overvoltage := faulted && !c3 && !c4 && c5
      modeBoost := dbg && decide (st1.STATUS &&& 0x03 = 0)
      modeBuck := dbg && decide (st1.STATUS &&& 0x03 = 1)
      modeBuckBoost := dbg && decide (st1.STATUS &&& 0x03 = 2)
      modeInvalid := dbg && decide (2 < st1.STATUS &&& 0x03) })

/-- Bits outside `mask` agree in `a` and `b`: clearing the mask bits of
both yields the same value. -/
def agreeOutside (a b mask : ℕ) : Prop := pyAndNot a mask = pyAndNot b mask

/-- Frame property of every bit-field mutator at one prior state and one
argument tuple: each mutator leaves all bits of its register outside its
own field unchanged.  Field positions are those the source manipulates:
`IOUT_LIMIT` enable bit 7; `VOUT_SR` bits 4–5 (both the OCP-delay and
the slew-rate setter mask-and-set this field); `VOUT_FS` bit 7 and bits
0–1; `CDC` bits 7, 6, 5, 3 and 0–2; `MODE` bits 7, 6, 5, 4 and 1.
`setOutputCurrentLimit` touches no register byte at all. -/
def bitIsolationAt (st : State) (amps step comp : ℚ) (t s cdcOpt fsw fswm : ℕ)
    (mech : String) : Prop :=
  (setOutputCurrentLimit st amps).1.IOUT_LIMIT = st.IOUT_LIMIT ∧
  (setOutputCurrentLimit st amps).1.dev = st.dev ∧
  agreeOutside (enableOutputCurrentLimit st).IOUT_LIMIT st.IOUT_LIMIT 0b10000000 ∧
  agreeOutside (disableOutputCurrentLimit st).IOUT_LIMIT st.IOUT_LIMIT 0b10000000 ∧
  agreeOutside (setOCPResponseTime st t).VOUT_SR st.VOUT_SR 0b00110000 ∧
  agreeOutside (setSlewRate st s).VOUT_SR st.VOUT_SR 0b00110000 ∧
  agreeOutside (setFeedbackMechanism st mech).VOUT_FS st.VOUT_FS 0b10000000 ∧
  agreeOutside (setStepSize st step).VOUT_FS st.VOUT_FS 0b00000011 ∧
  agreeOutside (enableSCIndication st).CDC st.CDC 0b10000000 ∧
  agreeOutside (disableSCIndication st).CDC st.CDC 0b10000000 ∧
  agreeOutside (enableOCPIndication st).CDC st.CDC 0b01000000 ∧
  agreeOutside (disableOCPIndication st).CDC st.CDC 0b01000000 ∧
  agreeOutside (enableOVPIndication st).CDC st.CDC 0b00100000 ∧
  agreeOutside (disableOVPIndication st).CDC st.CDC 0b00100000 ∧
  agreeOutside (setCDCOption st cdcOpt).CDC st.CDC 0b00001000 ∧
  agreeOutside (setCDCCompensation st comp).CDC st.CDC 0b00000111 ∧
  agreeOutside (enable st).MODE st.MODE 0b10000000 ∧
  agreeOutside (disable st).MODE st.MODE 0b10000000 ∧
  agreeOutside (FSWDoubling st fsw).MODE st.MODE 0b01000000 ∧
  agreeOutside (enableHiccupMode st).MODE st.MODE 0b00100000 ∧
  agreeOutside (disableHiccupMode st).MODE st.MODE 0b00100000 ∧
  agreeOutside (enableVOUTDischarge st).MODE st.MODE 0b00010000 ∧
  agreeOutside (disableVOUTDischarge st).MODE st.MODE 0b00010000 ∧
  agreeOutside (FSWOperatingMode st fswm).MODE st.MODE 0b00000010

/-! Bitwise helper lemmas used by the frame and idempotence proofs. -/

theorem natLorLorSelf (a m : ℕ) : (a ||| m) ||| m = a ||| m := by
  apply Nat.eq_of_testBit_eq
  intro i
  simp only [Nat.testBit_lor]
  cases a.testBit i <;> cases m.testBit i <;> rfl

theorem natLorZero (a : ℕ) : a ||| 0 = a := by
  apply Nat.eq_of_testBit_eq
  intro i
  simp only [Nat.testBit_lor, Nat.zero_testBit, Bool.or_false]

theorem pyAndNotTestBit (a m i : ℕ) :
    (pyAndNot a m).testBit i = (a.testBit i && !(m.testBit i)) := by
  simp only [pyAndNot, Nat.testBit_xor, Nat.testBit_land]
  cases a.testBit i <;> cases m.testBit i <;> rfl

theorem pyAndNotPyAndNotSelf (a m : ℕ) : pyAndNot (pyAndNot a m) m = pyAndNot a m := by
  apply Nat.eq_of_testBit_eq
  intro i
  simp only [pyAndNotTestBit]
  cases a.testBit i <;> cases m.testBit i <;> rfl

theorem pyAndNotLorDistrib (a b m : ℕ) :
    pyAndNot (a ||| b) m = pyAndNot a m ||| pyAndNot b m := by
  apply Nat.eq_of_testBit_eq
  intro i
  simp only [pyAndNotTestBit, Nat.testBit_lor]
  cases a.testBit i <;> cases b.testBit i <;> cases m.testBit i <;> rfl

theorem pyAndNotLorSelf (x m : ℕ) : pyAndNot x m ||| x = x := by
  apply Nat.eq_of_testBit_eq
  intro i
  simp only [pyAndNotTestBit, Nat.testBit_lor]
  cases x.testBit i <;> cases m.testBit i <;> rfl

theorem natLandLandSelf (a m : ℕ) : (a &&& m) &&& m = a &&& m := by
  apply Nat.eq_of_testBit_eq
  intro i
  simp only [Nat.testBit_land]
  cases a.testBit i <;> cases m.testBit i <;> rfl

theorem natLdiffLandSelf (n m : ℕ) : Nat.ldiff n m &&& n = Nat.ldiff n m := by
  apply Nat.eq_of_testBit_eq
  intro i
  simp only [Nat.testBit_ldiff, Nat.testBit_land]
  cases n.testBit i <;> cases m.testBit i <;> rfl

theorem natLdiffLdiffSelf (a m : ℕ) : Nat.ldiff (Nat.ldiff a m) m = Nat.ldiff a m := by
  apply Nat.eq_of_testBit_eq
  intro i
  simp only [Nat.testBit_ldiff]
  cases a.testBit i <;> cases m.testBit i <;> rfl

/-- The mask-and-set pattern `reg := (reg &~ m) ||| x` is stable under
repetition. -/
theorem maskSetIdem (a m x : ℕ) :
    pyAndNot (pyAndNot a m ||| x) m ||| x = pyAndNot a m ||| x := by
  rw [pyAndNotLorDistrib, pyAndNotPyAndNotSelf, Nat.lor_assoc, pyAndNotLorSelf]

/-- The Python accumulation `v |= c` on arbitrary-precision integers is
stable under repetition. -/
theorem intLorLorSelf (a b : ℤ) : Int.lor (Int.lor a b) b = Int.lor a b := by
  cases a with
  | ofNat m =>
    cases b with
    | ofNat n => simp only [Int.lor, natLorLorSelf]
    | negSucc n => simp only [Int.lor, natLdiffLandSelf]
  | negSucc m =>
    cases b with
    | ofNat n => simp only [Int.lor, natLdiffLdiffSelf]
    | negSucc n => simp only [Int.lor, natLandLandSelf]

/-- Writing the same byte to the same device register twice equals
writing it once. -/
theorem writeDevRegIdem (d : DevRegs) (a v : ℕ) :
    writeDevReg (writeDevReg d a v) a v = writeDevReg d a v := by
  unfold writeDevReg
  split_ifs <;> rfl

theorem agreeRefl (a m : ℕ) : agreeOutside a a m := rfl

/-- ORing in bits that lie inside the mask leaves the outside bits
unchanged. -/
theorem agreeOrSub (a x m : ℕ) (h : pyAndNot x m = 0) : agreeOutside (a ||| x) a m := by
  unfold agreeOutside
  rw [pyAndNotLorDistrib, h, natLorZero]

/-- Clearing the mask bits leaves the outside bits unchanged. -/
theorem agreeClear (a m : ℕ) : agreeOutside (pyAndNot a m) a m :=
  pyAndNotPyAndNotSelf a m

/-- The mask-and-set pattern leaves the outside bits unchanged when the
inserted bits lie inside the mask. -/
theorem agreeMaskSet (a x m : ℕ) (h : pyAndNot x m = 0) :
    agreeOutside (pyAndNot a m ||| x) a m := by
  unfold agreeOutside
  rw [pyAndNotLorDistrib, pyAndNotPyAndNotSelf, h, natLorZero]

theorem ldiffShift4 (d : ℕ) (hd : d ≤ 3) : pyAndNot (d <<< 4) 0b00110000 = 0 := by
  interval_cases d <;> decide

theorem ldiffShift7 (f : ℕ) (hf : f ≤ 1) : pyAndNot (f <<< 7) 0b10000000 = 0 := by
  interval_cases f <;> decide

theorem ldiffLow2 (i : ℕ) (hi : i ≤ 3) : pyAndNot i 0b00000011 = 0 := by
  interval_cases i <;> decide

/-- C7.  Bit isolation: every bit-field mutator of the driver leaves all
bits of its register outside its own field unchanged — in particular
`setOutputCurrentLimit` never alters the enable bit 7 (it alters no
register byte at all), the current-limit enable toggles never alter bits
0–6, and every CDC, MODE and VOUT_SR field setter changes only its own
field.  The side conditions say the stored 2-bit OCP-delay code, 1-bit
feedback-mode code and 2-bit step code are in range, which holds in
every reachable state (they are initialised in range and only ever
assigned in-range values). -/
theorem C7_bit_isolation (st : State) (amps step comp : ℚ) (t s cdcOpt fsw fswm : ℕ)
    (mech : String) (hocp : st.OCP_DELAY ≤ 3) (hfb : st.FB_MODE ≤ 1)
    (hintfb : st.INTFB ≤ 3) :
    bitIsolationAt st amps step comp t s cdcOpt fsw fswm mech := by
  unfold bitIsolationAt
  refine ⟨rfl, rfl, agreeOrSub _ _ _ (by decide), agreeClear _ _, ?_, ?_, ?_, ?_,
    agreeOrSub _ _ _ (by decide), agreeClear _ _, agreeOrSub _ _ _ (by decide),
    agreeClear _ _, agreeOrSub _ _ _ (by decide), agreeClear _ _, ?_, ?_,
    agreeOrSub _ _ _ (by decide), agreeClear _ _, ?_,
    agreeOrSub _ _ _ (by decide), agreeClear _ _, agreeOrSub _ _ _ (by decide),
    agreeOrSub _ _ _ (by decide), ?_⟩
  · simp only [setOCPResponseTime, setRegister]
    split_ifs with h
    · rcases h with h | h | h | h <;> subst h
      · exact agreeMaskSet st.VOUT_SR (0 <<< 4) 48 (by decide)
      · exact agreeMaskSet st.VOUT_SR (1 <<< 4) 48 (by decide)
      · exact agreeMaskSet st.VOUT_SR (2 <<< 4) 48 (by decide)
      · exact agreeMaskSet st.VOUT_SR (3 <<< 4) 48 (by decide)
    · exact agreeRefl _ _
  · simp only [setSlewRate, setRegister]
    split_ifs with h
    · exact agreeMaskSet st.VOUT_SR (st.OCP_DELAY <<< 4) 48 (ldiffShift4 _ hocp)
    · exact agreeRefl _ _
  · simp only [setFeedbackMechanism, setRegister]
    split_ifs with h1 h2
    · exact agreeOrSub st.VOUT_FS (1 <<< 7) 128 (by decide)
    · exact agreeOrSub st.VOUT_FS (0 <<< 7) 128 (by decide)
    · exact agreeOrSub st.VOUT_FS (st.FB_MODE <<< 7) 128 (ldiffShift7 _ hfb)
  · simp only [setStepSize, setRegister]
    split_ifs with h1 h2 h3 h4
    · exact agreeOrSub st.VOUT_FS 0b00 3 (by decide)
    · exact agreeOrSub st.VOUT_FS 0b01 3 (by decide)
    · exact agreeOrSub st.VOUT_FS 0b10 3 (by decide)
    · exact agreeOrSub st.VOUT_FS 0b11 3 (by decide)
    · exact agreeOrSub st.VOUT_FS st.INTFB 3 (ldiffLow2 _ hintfb)
  · simp only [setCDCOption, setRegister]
    split_ifs with h1 h2
    · exact agreeClear st.CDC (1 <<< 3)
    · exact agreeOrSub st.CDC (1 <<< 3) 8 (by decide)
    · exact agreeRefl _ _
  · simp only [setCDCCompensation, setRegister]
    split_ifs
    · exact agreeMaskSet st.CDC 0b000 7 (by decide)
    · exact agreeMaskSet st.CDC 0b001 7 (by decide)
    · exact agreeMaskSet st.CDC 0b010 7 (by decide)
    · exact agreeMaskSet st.CDC 0b011 7 (by decide)
    · exact agreeMaskSet st.CDC 0b100 7 (by decide)
    · exact agreeMaskSet st.CDC 0b101 7 (by decide)
    · exact agreeMaskSet st.CDC 0b110 7 (by decide)
    · exact agreeMaskSet st.CDC 0b111 7 (by decide)
    · exact agreeRefl _ _
  · simp only [FSWDoubling, setRegister]
    split_ifs with h1 h2
    · exact agreeClear st.MODE (1 <<< 6)
    · exact agreeOrSub st.MODE (1 <<< 6) 64 (by decide)
    · exact agreeRefl _ _
  · simp only [FSWOperatingMode, setRegister]
    split_ifs with h1 h2
    · exact agreeClear st.MODE (1 <<< 1)
    · exact agreeOrSub st.MODE (1 <<< 1) 2 (by decide)
    · exact agreeRefl _ _

/-- Witness for C7 at the reset state and one concrete argument per
mutator. -/
theorem C7_bit_isolation_witness :
    (initState.OCP_DELAY ≤ 3 ∧ initState.FB_MODE ≤ 1 ∧ initState.INTFB ≤ 3) ∧
    bitIsolationAt initState (35/100) (5/2) (1/10) 2 1 0 1 0 "external" :=
  ⟨by decide,
    C7_bit_isolation initState (35/100) (5/2) (1/10) 2 1 0 1 0 "external"
      (by decide) (by decide) (by decide)⟩

/-- C10.  `disableVOUTDischarge()` performs the same `MODE |= (1 << 4)`
as `enableVOUTDischarge()`: from any starting state the two methods
produce identical MODE register bytes (and device writes), and after
`disableVOUTDischarge()` the discharge bit 4 is set, not cleared. -/
theorem C10_disableVOUTDischarge_sets_bit (st : State) :
    (disableVOUTDischarge st).MODE = (enableVOUTDischarge st).MODE ∧
    (disableVOUTDischarge st).dev = (enableVOUTDischarge st).dev ∧
    (disableVOUTDischarge st).MODE.testBit 4 = true := by
  refine ⟨rfl, rfl, ?_⟩
  show (st.MODE ||| (1 <<< 4)).testBit 4 = true
  rw [Nat.testBit_lor]
  have h16 : Nat.testBit (1 <<< 4) 4 = true := by decide
  rw [h16, Bool.or_true]


/-- C1.  Code evaluation at the failing input `setOutputVoltage(5.0)`
from the reset state (10 mV step, `INTFB` code `0b11`, `VREF` shadow 0):
the driver computes DAC code 420 — not `round_up(1.7715*(282-45)) + 1 =
421` as specified, because `int` truncates — writes its low byte 164 to
register 0x00 and its high bits 1 to register 0x01, and reports an
effective voltage of `420 / 3 = 140` volts (it divides the code by the
2-bit step-size field, not by the feedback divisor), which is not within
one quantization step of the requested 5 V. -/
theorem C1_setOutputVoltage_code_eval :
    (setOutputVoltage initState 5).1.VREF = 420 ∧
    (setOutputVoltage initState 5).1.REF_VOLTAGE_LSB = 164 ∧
    (setOutputVoltage initState 5).1.REF_VOLTAGE_MSB = 1 ∧
    (setOutputVoltage initState 5).1.dev.r0 = 164 ∧
    (setOutputVoltage initState 5).1.dev.r1 = 1 ∧
    (setOutputVoltage initState 5).1.outputVoltage = 140 ∧
    (⌈(17715/10000 : ℚ) * (5 * (564/10000) * 1000 - 45)⌉ + 1 : ℤ) = 421 :=
  of_decide_eq_true (by with_unfolding_all rfl)

/-- C2.  Code evaluation at out-of-range inputs from the reset state:
`setOutputVoltage(23.0)` prints the out-of-range message (`.2 = true`)
but still overwrites both reference registers (shadow LSB becomes 171
and is pushed to device register 0x00, which held 0), because the guard
ends in `pass` instead of returning; `setOutputVoltage(0.5)` likewise
reports and still writes (the negative truncated code `-28` is ORed in,
leaving 228 and 7 in the two registers). -/
theorem C2_out_of_range_still_writes :
    (setOutputVoltage initState 23).2 = true ∧
    (setOutputVoltage initState 23).1.REF_VOLTAGE_LSB = 171 ∧
    (setOutputVoltage initState 23).1.dev.r0 = 171 ∧
    (setOutputVoltage initState (1/2)).2 = true ∧
    (setOutputVoltage initState (1/2)).1.VREF = -28 ∧
    (setOutputVoltage initState (1/2)).1.REF_VOLTAGE_LSB = 228 ∧
    (setOutputVoltage initState (1/2)).1.REF_VOLTAGE_MSB = 7 ∧
    initState.REF_VOLTAGE_LSB = 0 ∧ initState.REF_VOLTAGE_MSB = 0 ∧
    initState.dev.r0 = 0 :=
  of_decide_eq_true (by with_unfolding_all rfl)

/-- C3.  The 11-bit invariant fails on an in-range input: from the reset
state (default 10 mV step), `setOutputVoltage(22.0)` stores reference
code 2119 > 2047 (the driver never clamps), and the two registers then
encode `2119 & 0xFF = 71` and `(2119 >> 8) & 0b111 = 0`, i.e. the
reconstructed code 71 silently drops bit 11. -/
theorem C3_reference_code_overflow :
    2047 < (setOutputVoltage initState 22).1.VREF ∧
    (setOutputVoltage initState 22).1.VREF = 2119 ∧
    (setOutputVoltage initState 22).1.REF_VOLTAGE_LSB = 71 ∧
    (setOutputVoltage initState 22).1.REF_VOLTAGE_MSB = 0 :=
  of_decide_eq_true (by with_unfolding_all rfl)

/-- C4.  Code evaluation at `setOutputCurrentLimit(0.35)`: the validity
check reports the (valid) input as invalid, the stored value is the
fraction `0.0035 / 0.5 = 0.007` rather than a 7-bit code, and neither
the `IOUT_LIMIT` shadow byte nor any device register changes — the
register write is unimplemented. -/
theorem C4_setOutputCurrentLimit_unimplemented :
    (setOutputCurrentLimit initState (35/100)).2 = true ∧
    (setOutputCurrentLimit initState (35/100)).1.currentLimitSet = 7/1000 ∧
    (setOutputCurrentLimit initState (35/100)).1.IOUT_LIMIT = initState.IOUT_LIMIT ∧
    (setOutputCurrentLimit initState (35/100)).1.dev = initState.dev :=
  of_decide_eq_true (by with_unfolding_all rfl)

/-- C5.  The slew-rate and OCP-delay setters collide on the same 2-bit
field: from the reset state, `setOCPResponseTime(0b10)` makes `VOUT_SR =
0b100001`; the subsequent `setSlewRate(0b01)` rewrites the same bits 4–5
with the stored OCP delay, leaving `VOUT_SR` unchanged at `0b100001`
(field value 0b10); the slew code 0b01 lands only in the `_SR`
attribute, never in any register field. -/
theorem C5_slew_ocp_field_collision :
    (setOCPResponseTime initState 2).VOUT_SR = 33 ∧
    (setSlewRate (setOCPResponseTime initState 2) 1).VOUT_SR = 33 ∧
    ((setSlewRate (setOCPResponseTime initState 2) 1).VOUT_SR >>> 4) &&& 0b11 = 2 ∧
    (setSlewRate (setOCPResponseTime initState 2) 1).SR = 1 :=
  of_decide_eq_true (by with_unfolding_all rfl)

/-- C6.  The VOUT_FS setters OR their code in and can never clear bits:
from the reset state (`VOUT_FS = 0b00000011`), `setStepSize(2.5)` sets
the step state to code 0 / 0.2256 but the register low bits stay 0b11
(still selecting the 10 mV step); after `setFeedbackMechanism("external")`
then `setFeedbackMechanism("internal")`, the mode state is 0 but
register bit 7 stays set. -/
theorem C6_or_only_field_update :
    (setStepSize initState (5/2)).INTFB = 0 ∧
    (setStepSize initState (5/2)).INTFB_Val = 2256/10000 ∧
    (setStepSize initState (5/2)).VOUT_FS &&& 0b11 = 0b11 ∧
    (setFeedbackMechanism (setFeedbackMechanism initState "external") "internal").FB_MODE = 0 ∧
    (setFeedbackMechanism
      (setFeedbackMechanism initState "external") "internal").VOUT_FS.testBit 7 = true :=
  of_decide_eq_true (by with_unfolding_all rfl)

/-- C8.  Status decode at byte `0b00100000` (overvoltage bit 5 set),
verbose read, output previously enabled: the automatic protective
disable does fire (MODE bit 7 cleared, enable pin off), and the debug
branch decodes operating mode Boost, but the fault report is all-false —
in particular `overvoltage = false` — because each fault test compares a
character of `bin(status)` with the integer 1, which is always `False`
in Python. -/
theorem C8_status_decode_eval :
    (readStatusRegister (enable initState) 0b00100000 "debug").1.MODE.testBit 7 = false ∧
    (readStatusRegister (enable initState) 0b00100000 "debug").1.enablePin = false ∧
    (readStatusRegister (enable initState) 0b00100000 "debug").2.overvoltage = false ∧
    (readStatusRegister (enable initState) 0b00100000 "debug").2.shortCircuit = false ∧
    (readStatusRegister (enable initState) 0b00100000 "debug").2.overcurrent = false ∧
    (readStatusRegister (enable initState) 0b00100000 "debug").2.modeBoost = true :=
  of_decide_eq_true (by with_unfolding_all rfl)


/-! Idempotence of each setter: calling it twice with the same argument
leaves the state (shadow bytes and device bytes included) exactly as
after one call. -/

theorem setOutputVoltageIdem (st : State) (v : ℚ) :
    (setOutputVoltage (setOutputVoltage st v).1 v).1 = (setOutputVoltage st v).1 := by
  simp [setOutputVoltage, setRegister, writeDevReg, intLorLorSelf]

theorem setOutputCurrentLimitIdem (st : State) (c : ℚ) :
    (setOutputCurrentLimit (setOutputCurrentLimit st c).1 c).1 =
      (setOutputCurrentLimit st c).1 := rfl

theorem enableOutputCurrentLimitIdem (st : State) :
    enableOutputCurrentLimit (enableOutputCurrentLimit st) = enableOutputCurrentLimit st := by
  simp [enableOutputCurrentLimit, setRegister, writeDevReg, natLorLorSelf]

theorem disableOutputCurrentLimitIdem (st : State) :
    disableOutputCurrentLimit (disableOutputCurrentLimit st) = disableOutputCurrentLimit st := by
  simp [disableOutputCurrentLimit, setRegister, writeDevReg, pyAndNotPyAndNotSelf]

theorem setOCPResponseTimeIdem (st : State) (t : ℕ) :
    setOCPResponseTime (setOCPResponseTime st t) t = setOCPResponseTime st t := by
  by_cases h : t = 0 ∨ t = 1 ∨ t = 2 ∨ t = 3 <;>
    simp [setOCPResponseTime, setRegister, writeDevReg, h, maskSetIdem]

theorem setSlewRateIdem (st : State) (s : ℕ) :
    setSlewRate (setSlewRate st s) s = setSlewRate st s := by
  by_cases h : s = 0 ∨ s = 1 ∨ s = 2 ∨ s = 3 <;>
    simp [setSlewRate, setRegister, writeDevReg, h, maskSetIdem]

theorem setFeedbackMechanismIdem (st : State) (mech : String) :
    setFeedbackMechanism (setFeedbackMechanism st mech) mech = setFeedbackMechanism st mech := by
  by_cases h1 : mech = "external"
  · simp [setFeedbackMechanism, setRegister, writeDevReg, h1, natLorLorSelf]
  · by_cases h2 : mech = "internal" <;>
      simp [setFeedbackMechanism, setRegister, writeDevReg, h1, h2, natLorLorSelf]

theorem setStepSizeIdem (st : State) (q : ℚ) :
    setStepSize (setStepSize st q) q = setStepSize st q := by
  by_cases h1 : q = 5/2
  · norm_num [setStepSize, setRegister, writeDevReg, h1, natLorLorSelf]
  · by_cases h2 : q = 5
    · norm_num [setStepSize, setRegister, writeDevReg, h1, h2, natLorLorSelf]
    · by_cases h3 : q = 15/2
      · norm_num [setStepSize, setRegister, writeDevReg, h1, h2, h3, natLorLorSelf]
      · by_cases h4 : q = 10 <;>
          norm_num [setStepSize, setRegister, writeDevReg, h1, h2, h3, h4, natLorLorSelf]

theorem enableSCIndicationIdem (st : State) :
    enableSCIndication (enableSCIndication st) = enableSCIndication st := by
  simp [enableSCIndication, setRegister, writeDevReg, natLorLorSelf]

theorem disableSCIndicationIdem (st : State) :
    disableSCIndication (disableSCIndication st) = disableSCIndication st := by
  simp [disableSCIndication, setRegister, writeDevReg, pyAndNotPyAndNotSelf]

theorem enableOCPIndicationIdem (st : State) :
    enableOCPIndication (enableOCPIndication st) = enableOCPIndication st := by
  simp [enableOCPIndication, setRegister, writeDevReg, natLorLorSelf]

theorem disableOCPIndicationIdem (st : State) :
    disableOCPIndication (disableOCPIndication st) = disableOCPIndication st := by
  simp [disableOCPIndication, setRegister, writeDevReg, pyAndNotPyAndNotSelf]

theorem enableOVPIndicationIdem (st : State) :
    enableOVPIndication (enableOVPIndication st) = enableOVPIndication st := by
  simp [enableOVPIndication, setRegister, writeDevReg, natLorLorSelf]

theorem disableOVPIndicationIdem (st : State) :
    disableOVPIndication (disableOVPIndication st) = disableOVPIndication st := by
  simp [disableOVPIndication, setRegister, writeDevReg, pyAndNotPyAndNotSelf]

theorem setCDCOptionIdem (st : State) (o : ℕ) :
    setCDCOption (setCDCOption st o) o = setCDCOption st o := by
  by_cases h1 : o = 0
  · simp [setCDCOption, setRegister, writeDevReg, h1, pyAndNotPyAndNotSelf]
  · by_cases h2 : o = 1 <;>
      simp [setCDCOption, setRegister, writeDevReg, h1, h2, natLorLorSelf]

theorem setCDCCompensationIdem (st : State) (c : ℚ) :
    setCDCCompensation (setCDCCompensation st c) c = setCDCCompensation st c := by
  by_cases h1 : c = 0
  · norm_num [setCDCCompensation, setRegister, writeDevReg, h1, maskSetIdem, pyAndNotPyAndNotSelf]
  · by_cases h2 : c = 1/10
    · norm_num [setCDCCompensation, setRegister, writeDevReg, h1, h2, maskSetIdem, pyAndNotPyAndNotSelf]
    · by_cases h3 : c = 1/5
      · norm_num [setCDCCompensation, setRegister, writeDevReg, h1, h2, h3, maskSetIdem, pyAndNotPyAndNotSelf]
      · by_cases h4 : c = 3/10
        · norm_num [setCDCCompensation, setRegister, writeDevReg, h1, h2, h3, h4, maskSetIdem, pyAndNotPyAndNotSelf]
        · by_cases h5 : c = 2/5
          · norm_num [setCDCCompensation, setRegister, writeDevReg, h1, h2, h3, h4, h5, maskSetIdem, pyAndNotPyAndNotSelf]
          · by_cases h6 : c = 1/2
            · norm_num [setCDCCompensation, setRegister, writeDevReg,
                h1, h2, h3, h4, h5, h6, maskSetIdem, pyAndNotPyAndNotSelf]
            · by_cases h7 : c = 3/5
              · norm_num [setCDCCompensation, setRegister, writeDevReg,
                  h1, h2, h3, h4, h5, h6, h7, maskSetIdem, pyAndNotPyAndNotSelf]
              · by_cases h8 : c = 7/10 <;>
                  norm_num [setCDCCompensation, setRegister, writeDevReg,
                    h1, h2, h3, h4, h5, h6, h7, h8, maskSetIdem, pyAndNotPyAndNotSelf]

theorem enableIdem (st : State) : enable (enable st) = enable st := by
  simp [enable, setRegister, writeDevReg, natLorLorSelf]

theorem disableIdem (st : State) : disable (disable st) = disable st := by
  simp [disable, setRegister, writeDevReg, pyAndNotPyAndNotSelf]

theorem FSWDoublingIdem (st : State) (i : ℕ) :
    FSWDoubling (FSWDoubling st i) i = FSWDoubling st i := by
  by_cases h1 : i = 0
  · simp [FSWDoubling, setRegister, writeDevReg, h1, pyAndNotPyAndNotSelf]
  · by_cases h2 : i = 1 <;>
      simp [FSWDoubling, setRegister, writeDevReg, h1, h2, natLorLorSelf]

theorem enableHiccupModeIdem (st : State) :
    enableHiccupMode (enableHiccupMode st) = enableHiccupMode st := by
  simp [enableHiccupMode, setRegister, writeDevReg, natLorLorSelf]

theorem disableHiccupModeIdem (st : State) :
    disableHiccupMode (disableHiccupMode st) = disableHiccupMode st := by
  simp [disableHiccupMode, setRegister, writeDevReg, pyAndNotPyAndNotSelf]

theorem enableVOUTDischargeIdem (st : State) :
    enableVOUTDischarge (enableVOUTDischarge st) = enableVOUTDischarge st := by
  simp [enableVOUTDischarge, setRegister, writeDevReg, natLorLorSelf]

theorem disableVOUTDischargeIdem (st : State) :
    disableVOUTDischarge (disableVOUTDischarge st) = disableVOUTDischarge st := by
  simp [disableVOUTDischarge, setRegister, writeDevReg, natLorLorSelf]

theorem FSWOperatingModeIdem (st : State) (i : ℕ) :
    FSWOperatingMode (FSWOperatingMode st i) i = FSWOperatingMode st i := by
  by_cases h1 : i = 0
  · simp [FSWOperatingMode, setRegister, writeDevReg, h1, pyAndNotPyAndNotSelf]
  · by_cases h2 : i = 1 <;>
      simp [FSWOperatingMode, setRegister, writeDevReg, h1, h2, natLorLorSelf]

/-- C9.  Idempotence: calling any setter of the driver twice in a row
with the same argument (any argument, valid or not, and any starting
state) leaves the entire driver state — every shadow register byte and
every byte written to the device — equal to its value after calling the
setter once. -/
theorem C9_setter_idempotence (st : State) (v amps step comp : ℚ)
    (t s cdcOpt fsw fswm : ℕ) (mech : String) :
    (setOutputVoltage (setOutputVoltage st v).1 v).1 = (setOutputVoltage st v).1 ∧
    (setOutputCurrentLimit (setOutputCurrentLimit st amps).1 amps).1 =
      (setOutputCurrentLimit st amps).1 ∧
    enableOutputCurrentLimit (enableOutputCurrentLimit st) = enableOutputCurrentLimit st ∧
    disableOutputCurrentLimit (disableOutputCurrentLimit st) = disableOutputCurrentLimit st ∧
    setOCPResponseTime (setOCPResponseTime st t) t = setOCPResponseTime st t ∧
    setSlewRate (setSlewRate st s) s = setSlewRate st s ∧
    setFeedbackMechanism (setFeedbackMechanism st mech) mech = setFeedbackMechanism st mech ∧
    setStepSize (setStepSize st step) step = setStepSize st step ∧
    enableSCIndication (enableSCIndication st) = enableSCIndication st ∧
    disableSCIndication (disableSCIndication st) = disableSCIndication st ∧
    enableOCPIndication (enableOCPIndication st) = enableOCPIndication st ∧
    disableOCPIndication (disableOCPIndication st) = disableOCPIndication st ∧
    enableOVPIndication (enableOVPIndication st) = enableOVPIndication st ∧
    disableOVPIndication (disableOVPIndication st) = disableOVPIndication st ∧
    setCDCOption (setCDCOption st cdcOpt) cdcOpt = setCDCOption st cdcOpt ∧
    setCDCCompensation (setCDCCompensation st comp) comp = setCDCCompensation st comp ∧
    enable (enable st) = enable st ∧
    disable (disable st) = disable st ∧
    FSWDoubling (FSWDoubling st fsw) fsw = FSWDoubling st fsw ∧
    enableHiccupMode (enableHiccupMode st) = enableHiccupMode st ∧
    disableHiccupMode (disableHiccupMode st) = disableHiccupMode st ∧
    enableVOUTDischarge (enableVOUTDischarge st) = enableVOUTDischarge st ∧
    disableVOUTDischarge (disableVOUTDischarge st) = disableVOUTDischarge st ∧
    FSWOperatingMode (FSWOperatingMode st fswm) fswm = FSWOperatingMode st fswm :=
  ⟨setOutputVoltageIdem st v, setOutputCurrentLimitIdem st amps,
    enableOutputCurrentLimitIdem st, disableOutputCurrentLimitIdem st,
    setOCPResponseTimeIdem st t, setSlewRateIdem st s,
    setFeedbackMechanismIdem st mech, setStepSizeIdem st step,
    enableSCIndicationIdem st, disableSCIndicationIdem st,
    enableOCPIndicationIdem st, disableOCPIndicationIdem st,
    enableOVPIndicationIdem st, disableOVPIndicationIdem st,
    setCDCOptionIdem st cdcOpt, setCDCCompensationIdem st comp,
    enableIdem st, disableIdem st, FSWDoublingIdem st fsw,
    enableHiccupModeIdem st, disableHiccupModeIdem st,
    enableVOUTDischargeIdem st, disableVOUTDischargeIdem st,
    FSWOperatingModeIdem st fswm⟩

end TPS55289
